import Mathlib

/- Shallow embedding of the session controller in src/gammad.py (class Controller).
   Each method of the controller becomes a pure function from a state to a state
   together with an explicit trace of external effects (driver-plugin calls,
   persistence-store calls, UDP responses, LoopingCall start/stop, deferred
   acquisition dispatch).  The machine state mirrors the fields assigned in
   Controller.__init__.  The persistence module gc_database and the plugin
   modules are external collaborators that are not part of src/; their call
   sites are recorded as effects, and gc_database.create is modelled from the
   spec (section 4.6) as an always-succeeding open returning a fresh handle. -/

inductive SessionState
| Ready
| Busy
deriving DecidableEq

inductive SpectrumState
| Ready
| Busy
deriving DecidableEq

inductive DetectorState
| Cold
| Warm
deriving DecidableEq

/-- Model of the detector_data payload of a detector_config command; only the
plugin_name key is inspected by the controller, the remaining settings are
opaque to the core. -/
structure DetectorData where
  plugin_name : Option String
deriving DecidableEq

/-- Model of a decoded command envelope; fields the controller reads are
modelled as optional (a missing key raises KeyError in Python). -/
structure Msg where
  command : Option String
  detector_data : Option DetectorData
  session_name : Option String
deriving DecidableEq

/-- Fields of the get_status response built in datagramReceived. -/
structure StatusFields where
  free_disk_space : Nat
  session_running : Bool
  spectrum_index : Nat
  detector_configured : Bool
deriving DecidableEq

/-- Response envelopes sent back to the operator. -/
inductive Response
| info (command message : String)
| data (command : String) (dd : DetectorData)
| msgEcho (command : String) (m : Msg)
| status (fields : StatusFields)
| spectrum (index : Nat)
deriving DecidableEq

/-- External effects performed by the controller, in program order. -/
inductive Effect
| send (r : Response)
| finalizePlugin (p : String)
| initPlugin (p : String)
| initDetector (p : String) (dd : DetectorData)
| initPluginSession (p : String)
| finalPluginSession (p : String)
| dbCreate (h : Nat)
| dbClose (h : Option Nat)
| dbInsert (h : Option Nat) (index : Nat)
| dbQuery (name : String)
| loopStart
| loopStop
| acquireStart
deriving DecidableEq

/-- State of the Controller object: one field per attribute assigned in
Controller.__init__ (the gps thread handle is external and carries no
controller-visible state).  session_loop models the LoopingCall: none before
any session was started, some b with b the running flag. -/
structure Controller where
  client_address : Option Nat
  detector_state : DetectorState
  detector_data : Option DetectorData
  session_args : Option Msg
  session_loop : Option Bool
  session_state : SessionState
  spectrum_state : SpectrumState
  spectrum_index : Nat
  spectrum_failures : Nat
  database_connection : Option Nat
  plugin : Option String
deriving DecidableEq

/-- Environment of a dispatch: the set of importable plugin modules
(sys.modules plus what importlib can resolve), the statvfs figures read by
get_status, and the handle returned by the store for the next open. -/
structure Env where
  modules : List String
  f_bsize : Nat
  f_bavail : Nat
  fresh_handle : Nat

/-- Controller.__init__. -/
def Controller.init : Controller :=
  { client_address := none
    detector_state := DetectorState.Cold
    detector_data := none
    session_args := none
    session_loop := none
    session_state := SessionState.Ready
    spectrum_state := SpectrumState.Ready
    spectrum_index := 0
    spectrum_failures := 0
    database_connection := none
    plugin := none }

/-- Controller.sendResponse: the datagram is written only when a client
address has been seen; otherwise the send is dropped (logged only). -/
def sendResponse (s : Controller) (r : Response) : List Effect :=
  match s.client_address with
  | some _ => [Effect.send r]
  | none => []

/-- Controller.sendResponseWithInfo. -/
def sendResponseWithInfo (s : Controller) (command info : String) : List Effect :=
  sendResponse s (Response.info command info)

/-- Controller.loadPlugin: finalize the previously bound plugin first, then
resolve the module plugin_name; returns the resolved module name, or none
when the import raises ImportError. -/
def loadPlugin (env : Env) (s : Controller) (name : String) : Option String × List Effect :=
  let effs : List Effect :=
    match s.plugin with
    | some p => [Effect.finalizePlugin p]
    | none => []
  let modname := "plugin_" ++ name
  if env.modules.contains modname then (some modname, effs) else (none, effs)

/-- Controller.initializeSession.  The third component is none on success,
or some message when a Python exception is raised part way through (KeyError
on a missing session_name before any mutation; AttributeError when no plugin
is bound, raised after session_args, the counters and the store handle have
already been set).  The Python texts of these exceptions contain quote
characters; they are rendered here without them. -/
def initializeSession (env : Env) (s : Controller) (m : Msg) :
    Controller × List Effect × Option String :=
  match m.session_name with
  | none => (s, [], some "session_name")
  | some _ =>
    let s1 := { s with
      session_args := some m
      spectrum_index := 0
      spectrum_failures := 0
      database_connection := some env.fresh_handle }
    match s1.plugin with
    | none =>
      (s1, [Effect.dbCreate env.fresh_handle],
        some "NoneType object has no attribute initializeSession")
    | some p =>
      (s1, [Effect.dbCreate env.fresh_handle, Effect.initPluginSession p], none)

/-- Controller.startSession. -/
def startSession (s : Controller) : Controller × List Effect :=
  ({ s with session_loop := some true, session_state := SessionState.Busy },
    [Effect.loopStart])

/-- Controller.stopSession: stop the looping call and mark the session Ready. -/
def stopSession (s : Controller) : Controller × List Effect :=
  ({ s with
      session_loop := s.session_loop.map (fun _ => false)
      session_state := SessionState.Ready },
    [Effect.loopStop])

/-- Controller.finalizeSession: finalize the driver session, close the store
handle and null it.  When no plugin is bound the attribute access raises and
nothing below it runs (unreachable on the paths the dispatcher allows). -/
def finalizeSession (s : Controller) : Controller × List Effect :=
  match s.plugin with
  | none => (s, [])
  | some p =>
    ({ s with database_connection := none },
      [Effect.finalPluginSession p, Effect.dbClose s.database_connection])

/-- Controller.sessionTick: start a new acquisition only when no acquisition
is in flight, and mark the acquisition busy in the same event-loop turn. -/
def sessionTick (s : Controller) : Controller × List Effect :=
  if s.spectrum_state = SpectrumState.Ready then
    ({ s with spectrum_state := SpectrumState.Busy }, [Effect.acquireStart])
  else (s, [])

/-- Controller.handleSpectrumSuccess: stamp the next index, insert into the
store, report, and mark the acquisition ready.  The insert is attempted with
whatever handle is currently held; a nulled (closed) handle makes the insert
raise inside the callback, so the lines after it do not run. -/
def handleSpectrumSuccess (s : Controller) : Controller × List Effect :=
  let idx := s.spectrum_index
  let s1 := { s with spectrum_index := idx + 1 }
  match s1.database_connection with
  | none => (s1, [Effect.dbInsert none idx])
  | some h =>
    ({ s1 with spectrum_state := SpectrumState.Ready },
      [Effect.dbInsert (some h) idx] ++ sendResponse s1 (Response.spectrum idx))

/-- Message of the escalation response in Controller.handleSpectrumFailure. -/
def terminalFailureMsg : String :=
  "Acquiring spectrum has failed 3 times, stopping session"

/-- Controller.handleSpectrumFailure: report the error, bump the failure
counter, and on reaching 3 stop and finalize the session and report the
distinct terminal message; the acquisition is marked ready in every case. -/
def handleSpectrumFailure (errMsg : String) (s : Controller) : Controller × List Effect :=
  let e1 := sendResponseWithInfo s "error" errMsg
  let s1 := { s with spectrum_failures := s.spectrum_failures + 1 }
  if 3 ≤ s1.spectrum_failures then
    let r2 := stopSession s1
    let r3 := finalizeSession r2.1
    let e4 := sendResponseWithInfo r3.1 "error" terminalFailureMsg
    ({ r3.1 with spectrum_state := SpectrumState.Ready },
      e1 ++ r2.2 ++ r3.2 ++ e4)
  else
    ({ s1 with spectrum_state := SpectrumState.Ready }, e1)

/-- Controller.datagramReceived: record the sender address, decode the
command, check its preconditions and execute it; a raised ProtocolError,
ImportError or generic exception is answered with the corresponding tagged
response, keeping every mutation made before the raise.  The sync_session
record streaming is abstracted to the store query effect (gc_database is not
part of src/). -/
def datagramReceived (env : Env) (s0 : Controller) (m : Msg) (addr : Nat) :
    Controller × List Effect :=
  let s := { s0 with client_address := some addr }
  match m.command with
  | none => (s, sendResponseWithInfo s "error" "Message has no command")
  | some cmd =>
    if cmd = "detector_config" then
      if s.session_state = SessionState.Busy then
        (s, sendResponseWithInfo s "detector_config_busy"
          "Detector config failed, session is active")
      else
        match m.detector_data with
        | none => (s, sendResponseWithInfo s "error" "detector_data")
        | some dd =>
          let s1 := { s with detector_data := some dd }
          match dd.plugin_name with
          | none =>
            (s1, sendResponseWithInfo s1 "detector_config_error"
              "Detector config failed, plugin_name missing")
          | some name =>
            let lp := loadPlugin env s1 name
            match lp.1 with
            | none =>
              (s1, lp.2 ++ sendResponseWithInfo s1 "error" "Unable to import module")
            | some modname =>
              let s2 := { s1 with
                plugin := some modname
                detector_state := DetectorState.Warm }
              (s2, lp.2 ++ [Effect.initPlugin modname, Effect.initDetector modname dd]
                ++ sendResponse s2 (Response.data "detector_config_success" dd))
    else if cmd = "start_session" then
      if s.session_state = SessionState.Busy then
        (s, sendResponseWithInfo s "start_session_busy"
          "Start session failed, session is active")
      else
        let ini := initializeSession env s m
        match ini.2.2 with
        | some err => (ini.1, ini.2.1 ++ sendResponseWithInfo ini.1 "error" err)
        | none =>
          let st := startSession ini.1
          (st.1, ini.2.1 ++ st.2
            ++ sendResponse st.1 (Response.msgEcho "start_session_success" m))
    else if cmd = "stop_session" then
      if s.session_state = SessionState.Ready then
        (s, sendResponseWithInfo s "stop_session_noexist"
          "Stop session failed, no session active")
      else
        match s.session_args with
        | none => (s, sendResponseWithInfo s "error" "NoneType object is not subscriptable")
        | some sa =>
          match m.session_name with
          | none => (s, sendResponseWithInfo s "error" "session_name")
          | some nm =>
            if sa.session_name ≠ some nm then
              (s, sendResponseWithInfo s "stop_session_wrongname"
                "Stop session failed, wrong session name")
            else
              let sp := stopSession s
              let fz := finalizeSession sp.1
              (fz.1, sp.2 ++ fz.2
                ++ sendResponse fz.1 (Response.msgEcho "stop_session_success" m))
    else if cmd = "dump_session" then
      if s.session_state = SessionState.Ready then
        (s, sendResponseWithInfo s "dump_session_none"
          "Dump session failed, no session active")
      else
        (s, sendResponse s (Response.msgEcho "dump_session_success" m))
    else if cmd = "get_status" then
      let fields : StatusFields :=
        { free_disk_space := env.f_bsize * env.f_bavail
          session_running := s.session_state == SessionState.Busy
          spectrum_index :=
            if s.session_state = SessionState.Ready then 0 else s.spectrum_index
          detector_configured := s.detector_state == DetectorState.Warm }
      (s, sendResponse s (Response.status fields))
    else if cmd = "sync_session" then
      match m.session_name with
      | none => (s, sendResponseWithInfo s "error" "session_name")
      | some nm => (s, [Effect.dbQuery nm])
    else
      (s, sendResponseWithInfo s "error" ("Unknown command: " ++ cmd))

/-- Helper building a controller state field by field (same field order as the
Controller structure). -/
def mkCtrl (ca : Option Nat) (ds : DetectorState) (dd : Option DetectorData)
    (sa : Option Msg) (sl : Option Bool) (ss : SessionState) (sps : SpectrumState)
    (i f : Nat) (db : Option Nat) (pl : Option String) : Controller :=
  ⟨ca, ds, dd, sa, sl, ss, sps, i, f, db, pl⟩

/-- An active session, one acquisition failure already counted: the state used
to test whether a success clears the failure counter. -/
def c1CtrlEx : Controller :=
  mkCtrl (some 0) DetectorState.Warm (some ⟨some "osprey"⟩)
    (some ⟨some "start_session", none, some "s1"⟩) (some true) SessionState.Busy
    SpectrumState.Busy 4 1 (some 7) (some "plugin_osprey")

/-- A freshly started session (counters at 0), used to run a concrete
failure/success sequence through the acquisition handlers. -/
def c1Start : Controller :=
  mkCtrl (some 0) DetectorState.Warm (some ⟨some "osprey"⟩)
    (some ⟨some "start_session", none, some "s1"⟩) (some true) SessionState.Busy
    SpectrumState.Busy 0 0 (some 1) (some "plugin_osprey")

/-- The run failure, success, failure, failure from a fresh session, with the
accumulated effect trace. -/
def c1Seq : Controller × List Effect :=
  let r1 := handleSpectrumFailure "E" c1Start
  let r2 := handleSpectrumSuccess r1.1
  let r3 := handleSpectrumFailure "E" r2.1
  let r4 := handleSpectrumFailure "E" r3.1
  (r4.1, r1.2 ++ r2.2 ++ r3.2 ++ r4.2)

/-- C1, counterexample: with the failure counter at 1, handleSpectrumSuccess
completes (index stamped, insert performed, response sent) yet leaves
spectrum_failures at 1, not 0. -/
theorem C1_counterexample :
    (handleSpectrumSuccess c1CtrlEx).1.spectrum_failures = 1 ∧
    ¬ (handleSpectrumSuccess c1CtrlEx).1.spectrum_failures = 0 := by
  decide

/-- C1, amended: handleSpectrumSuccess never changes spectrum_failures (the
counter is reset only by initializeSession at session start), so the sequence
failure, success, failure, failure from a fresh session already reaches the
3-failure escalation: the session is stopped and the terminal message sent
once. -/
theorem C1_amended_success_keeps_failures :
    (∀ s : Controller,
      (handleSpectrumSuccess s).1.spectrum_failures = s.spectrum_failures) ∧
    c1Seq.1.session_state = SessionState.Ready ∧
    c1Seq.1.session_loop = some false ∧
    c1Seq.2.count (Effect.send (Response.info "error" terminalFailureMsg)) = 1 := by
  refine ⟨fun s => ?_, by decide, by decide, by decide⟩
  cases h : s.database_connection <;> simp [handleSpectrumSuccess, h]

/-- The controller state right after a session teardown while an acquisition
was still in flight: the store handle is closed and nulled, the session is
Ready, the acquisition is still Busy. -/
def c5Ctrl : Controller :=
  mkCtrl (some 0) DetectorState.Warm (some ⟨some "osprey"⟩)
    (some ⟨some "start_session", none, some "s1"⟩) (some false) SessionState.Ready
    SpectrumState.Busy 5 0 none (some "plugin_osprey")

/-- C5: an acquisition result delivered after teardown is not discarded: the
spectrum index is still incremented and the store insert is attempted with the
nulled handle (no guard exists in handleSpectrumSuccess). -/
theorem C5_insert_on_closed_handle :
    (handleSpectrumSuccess c5Ctrl).1.spectrum_index = 6 ∧
    (handleSpectrumSuccess c5Ctrl).2 = [Effect.dbInsert none 5] := by
  decide

/-- C7: a start_session received while the session is Busy (Active) is
rejected with the start_session_busy tag, and the only state change is the
recorded sender address: session_args, spectrum_index and spectrum_failures
are untouched. -/
theorem C7_start_session_busy (env : Env) (ca : Option Nat) (ds : DetectorState)
    (dd : Option DetectorData) (sa : Option Msg) (sl : Option Bool)
    (sps : SpectrumState) (i f : Nat) (db : Option Nat) (pl : Option String)
    (mdd : Option DetectorData) (msn : Option String) (addr : Nat) :
    (datagramReceived env (mkCtrl ca ds dd sa sl SessionState.Busy sps i f db pl)
        ⟨some "start_session", mdd, msn⟩ addr).1
      = mkCtrl (some addr) ds dd sa sl SessionState.Busy sps i f db pl ∧
    (datagramReceived env (mkCtrl ca ds dd sa sl SessionState.Busy sps i f db pl)
        ⟨some "start_session", mdd, msn⟩ addr).2
      = [Effect.send (Response.info "start_session_busy"
          "Start session failed, session is active")] := by
  constructor <;>
    simp [datagramReceived, sendResponseWithInfo, sendResponse, mkCtrl]

/-- Three consecutive acquisition failures applied to a state, with the
accumulated effect trace. -/
def failTrace3 (s : Controller) : Controller × List Effect :=
  let r1 := handleSpectrumFailure "E" s
  let r2 := handleSpectrumFailure "E" r1.1
  let r3 := handleSpectrumFailure "E" r2.1
  (r3.1, r1.2 ++ r2.2 ++ r3.2)

/-- C2: from an active session with the failure counter at 0, three
consecutive failures with no intervening success stop the looping call,
finalize the driver session, close and null the store handle, return the
session to Ready (Idle) and the acquisition to Ready, and the distinct
terminal-failure response appears exactly once in the trace. -/
theorem C2_three_failures_escalate (a : Nat) (ds : DetectorState)
    (dd : Option DetectorData) (sa : Option Msg) (sps : SpectrumState)
    (i h : Nat) (p : String) :
    (failTrace3 (mkCtrl (some a) ds dd sa (some true) SessionState.Busy sps i 0
        (some h) (some p))).1
      = mkCtrl (some a) ds dd sa (some false) SessionState.Ready
          SpectrumState.Ready i 3 none (some p) ∧
    (failTrace3 (mkCtrl (some a) ds dd sa (some true) SessionState.Busy sps i 0
        (some h) (some p))).2
      = [Effect.send (Response.info "error" "E"),
         Effect.send (Response.info "error" "E"),
         Effect.send (Response.info "error" "E"),
         Effect.loopStop,
         Effect.finalPluginSession p,
         Effect.dbClose (some h),
         Effect.send (Response.info "error" terminalFailureMsg)] ∧
    (failTrace3 (mkCtrl (some a) ds dd sa (some true) SessionState.Busy sps i 0
        (some h) (some p))).2.count
        (Effect.send (Response.info "error" terminalFailureMsg)) = 1 := by
  refine ⟨?_, ?_, ?_⟩ <;>
    simp [failTrace3, handleSpectrumFailure, stopSession, finalizeSession,
      sendResponseWithInfo, sendResponse, mkCtrl, terminalFailureMsg,
      List.count_cons]

/-- C8: the get_status response reports the statvfs free space product as an
integer, session_running true exactly when the session is Busy (Active),
spectrum_index 0 whenever the session is Ready (Idle) and the current index
otherwise, and detector_configured true exactly when the detector is Warm;
the controller state is unchanged apart from the recorded sender address. -/
theorem C8_get_status_fields (env : Env) (ca : Option Nat) (ds : DetectorState)
    (dd : Option DetectorData) (sa : Option Msg) (sl : Option Bool)
    (ss : SessionState) (sps : SpectrumState) (i f : Nat) (db : Option Nat)
    (pl : Option String) (mdd : Option DetectorData) (msn : Option String)
    (addr : Nat) :
    ∃ fl : StatusFields,
      (datagramReceived env (mkCtrl ca ds dd sa sl ss sps i f db pl)
          ⟨some "get_status", mdd, msn⟩ addr).1
        = mkCtrl (some addr) ds dd sa sl ss sps i f db pl ∧
      (datagramReceived env (mkCtrl ca ds dd sa sl ss sps i f db pl)
          ⟨some "get_status", mdd, msn⟩ addr).2
        = [Effect.send (Response.status fl)] ∧
      fl.free_disk_space = env.f_bsize * env.f_bavail ∧
      (fl.session_running = true ↔ ss = SessionState.Busy) ∧
      fl.spectrum_index = (if ss = SessionState.Ready then 0 else i) ∧
      (ss = SessionState.Ready → fl.spectrum_index = 0) ∧
      (fl.detector_configured = true ↔ ds = DetectorState.Warm) := by
  refine ⟨⟨env.f_bsize * env.f_bavail, ss == SessionState.Busy,
    if ss = SessionState.Ready then 0 else i, ds == DetectorState.Warm⟩,
    ?_, ?_, rfl, ?_, rfl, ?_, ?_⟩
  · simp [datagramReceived, sendResponse, mkCtrl]
  · simp [datagramReceived, sendResponse, mkCtrl]
  · simp
  · intro hss; simp [hss]
  · simp

/-- C10: a start_session received while Ready (Idle) with no plugin ever
bound fails with a generic error response and the session stays Ready, but
the command is not atomic: the SessionArgs are bound, the spectrum index and
failure counter are reset to 0, and the store handle has been opened, all
before the failure. -/
theorem C10_start_session_without_plugin (env : Env) (ca : Option Nat)
    (ds : DetectorState) (dd : Option DetectorData) (sa : Option Msg)
    (sl : Option Bool) (sps : SpectrumState) (i f : Nat) (db : Option Nat)
    (mdd : Option DetectorData) (nm : String) (addr : Nat) :
    (datagramReceived env (mkCtrl ca ds dd sa sl SessionState.Ready sps i f db none)
        ⟨some "start_session", mdd, some nm⟩ addr).1
      = mkCtrl (some addr) ds dd (some ⟨some "start_session", mdd, some nm⟩) sl
          SessionState.Ready sps 0 0 (some env.fresh_handle) none ∧
    (datagramReceived env (mkCtrl ca ds dd sa sl SessionState.Ready sps i f db none)
        ⟨some "start_session", mdd, some nm⟩ addr).2
      = [Effect.dbCreate env.fresh_handle,
         Effect.send (Response.info "error"
           "NoneType object has no attribute initializeSession")] := by
  constructor <;>
    simp [datagramReceived, initializeSession, sendResponseWithInfo,
      sendResponse, mkCtrl]

/-- Environment with only the osprey plugin importable. -/
def c3Env : Env := ⟨["plugin_osprey"], 4096, 100, 1⟩

/-- Idle controller with a bound osprey plugin and its stored configuration. -/
def c3Ctrl : Controller :=
  mkCtrl none DetectorState.Warm (some ⟨some "osprey"⟩) none none
    SessionState.Ready SpectrumState.Ready 0 0 none (some "plugin_osprey")

/-- A detector_config command naming an unknown plugin. -/
def c3Msg : Msg := ⟨some "detector_config", some ⟨some "nosuch"⟩, none⟩

/-- C3, counterexample: a detector_config naming an unknown plugin answers
with the generic error tag (not a detector_config_error-class tag) and the
stored detector configuration has been replaced by the new payload. -/
theorem C3_counterexample :
    (datagramReceived c3Env c3Ctrl c3Msg 0).2
      = [Effect.finalizePlugin "plugin_osprey",
         Effect.send (Response.info "error" "Unable to import module")] ∧
    (datagramReceived c3Env c3Ctrl c3Msg 0).1.detector_data = some ⟨some "nosuch"⟩ ∧
    c3Ctrl.detector_data = some ⟨some "osprey"⟩ := by
  decide

/-- Effects of Controller.loadPlugin on the previously bound plugin. -/
def prevPluginEffs (pl : Option String) : List Effect :=
  match pl with
  | some p => [Effect.finalizePlugin p]
  | none => []

/-- C3, amended: a detector_config naming an unknown or unloadable plugin
answers with the generic error tag and the message about the failed import;
Session State, Detector State and the plugin binding are unchanged, but the
stored detector_data has already been replaced by the new payload, and a
previously bound plugin has already been finalized. -/
theorem C3_amended_unknown_plugin (env : Env) (ca : Option Nat)
    (ds : DetectorState) (dd : Option DetectorData) (sa : Option Msg)
    (sl : Option Bool) (sps : SpectrumState) (i f : Nat) (db : Option Nat)
    (pl : Option String) (name : String) (msn : Option String) (addr : Nat)
    (hmod : env.modules.contains ("plugin_" ++ name) = false) :
    (datagramReceived env (mkCtrl ca ds dd sa sl SessionState.Ready sps i f db pl)
        ⟨some "detector_config", some ⟨some name⟩, msn⟩ addr).1
      = mkCtrl (some addr) ds (some ⟨some name⟩) sa sl SessionState.Ready sps
          i f db pl ∧
    (datagramReceived env (mkCtrl ca ds dd sa sl SessionState.Ready sps i f db pl)
        ⟨some "detector_config", some ⟨some name⟩, msn⟩ addr).2
      = prevPluginEffs pl
          ++ [Effect.send (Response.info "error" "Unable to import module")] := by
  have hmod' : ¬ ("plugin_" ++ name) ∈ env.modules := by
    simpa using hmod
  cases pl <;>
    · constructor <;>
        simp [datagramReceived, loadPlugin, prevPluginEffs,
          sendResponseWithInfo, sendResponse, mkCtrl, hmod']

/-- C3 witness: the amended theorem applied to the concrete unknown-plugin
scenario. -/
theorem C3_amended_witness :
    c3Env.modules.contains ("plugin_" ++ "nosuch") = false ∧
    ((datagramReceived c3Env (mkCtrl none DetectorState.Warm (some ⟨some "osprey"⟩)
        none none SessionState.Ready SpectrumState.Ready 0 0 none
        (some "plugin_osprey")) ⟨some "detector_config", some ⟨some "nosuch"⟩, none⟩ 0).1
      = mkCtrl (some 0) DetectorState.Warm (some ⟨some "nosuch"⟩) none none
          SessionState.Ready SpectrumState.Ready 0 0 none (some "plugin_osprey") ∧
    (datagramReceived c3Env (mkCtrl none DetectorState.Warm (some ⟨some "osprey"⟩)
        none none SessionState.Ready SpectrumState.Ready 0 0 none
        (some "plugin_osprey")) ⟨some "detector_config", some ⟨some "nosuch"⟩, none⟩ 0).2
      = prevPluginEffs (some "plugin_osprey")
          ++ [Effect.send (Response.info "error" "Unable to import module")]) :=
  ⟨by decide,
   C3_amended_unknown_plugin c3Env none DetectorState.Warm (some ⟨some "osprey"⟩)
     none none SpectrumState.Ready 0 0 none (some "plugin_osprey") "nosuch" none 0
     (by decide)⟩

/-- Idle controller holding a previously stored detector configuration. -/
def c4Ctrl : Controller :=
  mkCtrl none DetectorState.Warm (some ⟨some "osprey"⟩) none none
    SessionState.Ready SpectrumState.Ready 0 0 none (some "plugin_osprey")

/-- A detector_config command whose payload lacks the plugin name. -/
def c4Msg : Msg := ⟨some "detector_config", some ⟨none⟩, none⟩

/-- C4, counterexample: a detector_config whose payload lacks a plugin name is
rejected with the distinct detector_config_error tag, yet the stored
detector_data has been overwritten by the invalid payload: the rejected
command did mutate controller state. -/
theorem C4_counterexample :
    (datagramReceived c3Env c4Ctrl c4Msg 0).2
      = [Effect.send (Response.info "detector_config_error"
          "Detector config failed, plugin_name missing")] ∧
    (datagramReceived c3Env c4Ctrl c4Msg 0).1.detector_data = some ⟨none⟩ ∧
    c4Ctrl.detector_data = some ⟨some "osprey"⟩ := by
  decide

/-- C4, amended: a rejected detector_config sends its distinct named failure
response and leaves Session State, Detector State and the plugin binding
unchanged, but the stored detector_data is overwritten with the rejected
payload before the validation that rejects it. -/
theorem C4_amended_reject_overwrites_data (env : Env) (ca : Option Nat)
    (ds : DetectorState) (dd : Option DetectorData) (sa : Option Msg)
    (sl : Option Bool) (sps : SpectrumState) (i f : Nat) (db : Option Nat)
    (pl : Option String) (msn : Option String) (addr : Nat) :
    (datagramReceived env (mkCtrl ca ds dd sa sl SessionState.Ready sps i f db pl)
        ⟨some "detector_config", some ⟨none⟩, msn⟩ addr).1
      = mkCtrl (some addr) ds (some ⟨none⟩) sa sl SessionState.Ready sps i f db pl ∧
    (datagramReceived env (mkCtrl ca ds dd sa sl SessionState.Ready sps i f db pl)
        ⟨some "detector_config", some ⟨none⟩, msn⟩ addr).2
      = [Effect.send (Response.info "detector_config_error"
          "Detector config failed, plugin_name missing")] := by
  constructor <;>
    simp [datagramReceived, sendResponseWithInfo, sendResponse, mkCtrl]

/-- C9: when a plugin is already bound, a detector_config whose new plugin
cannot be resolved has already finalized the previous plugin (the finalize
effect precedes the import failure response), while Detector State remains
Warm and the plugin reference still points to the finalized module. -/
theorem C9_rebind_finalizes_before_resolution (env : Env) (ca : Option Nat)
    (dd : Option DetectorData) (sa : Option Msg) (sl : Option Bool)
    (sps : SpectrumState) (i f : Nat) (db : Option Nat) (p : String)
    (name : String) (msn : Option String) (addr : Nat)
    (hmod : env.modules.contains ("plugin_" ++ name) = false) :
    (datagramReceived env (mkCtrl ca DetectorState.Warm dd sa sl
        SessionState.Ready sps i f db (some p))
        ⟨some "detector_config", some ⟨some name⟩, msn⟩ addr).2
      = [Effect.finalizePlugin p,
         Effect.send (Response.info "error" "Unable to import module")] ∧
    (datagramReceived env (mkCtrl ca DetectorState.Warm dd sa sl
        SessionState.Ready sps i f db (some p))
        ⟨some "detector_config", some ⟨some name⟩, msn⟩ addr).1.plugin = some p ∧
    (datagramReceived env (mkCtrl ca DetectorState.Warm dd sa sl
        SessionState.Ready sps i f db (some p))
        ⟨some "detector_config", some ⟨some name⟩, msn⟩ addr).1.detector_state
      = DetectorState.Warm := by
  have hmod' : ¬ ("plugin_" ++ name) ∈ env.modules := by
    simpa using hmod
  refine ⟨?_, ?_, ?_⟩ <;>
    simp [datagramReceived, loadPlugin, sendResponseWithInfo, sendResponse,
      mkCtrl, hmod']

/-- C9 witness: the rebinding theorem applied to the concrete unknown-plugin
scenario with the osprey plugin bound. -/
theorem C9_witness :
    c3Env.modules.contains ("plugin_" ++ "nosuch") = false ∧
    ((datagramReceived c3Env (mkCtrl none DetectorState.Warm none none none
        SessionState.Ready SpectrumState.Ready 0 0 none (some "plugin_osprey"))
        ⟨some "detector_config", some ⟨some "nosuch"⟩, none⟩ 0).2
      = [Effect.finalizePlugin "plugin_osprey",
         Effect.send (Response.info "error" "Unable to import module")] ∧
    (datagramReceived c3Env (mkCtrl none DetectorState.Warm none none none
        SessionState.Ready SpectrumState.Ready 0 0 none (some "plugin_osprey"))
        ⟨some "detector_config", some ⟨some "nosuch"⟩, none⟩ 0).1.plugin
      = some "plugin_osprey" ∧
    (datagramReceived c3Env (mkCtrl none DetectorState.Warm none none none
        SessionState.Ready SpectrumState.Ready 0 0 none (some "plugin_osprey"))
        ⟨some "detector_config", some ⟨some "nosuch"⟩, none⟩ 0).1.detector_state
      = DetectorState.Warm) :=
  ⟨by decide,
   C9_rebind_finalizes_before_resolution c3Env none none none none
     SpectrumState.Ready 0 0 none "plugin_osprey" "nosuch" none 0 (by decide)⟩

/-- The dispatcher never touches the acquisition (spectrum) state: only
sessionTick and the two acquisition callbacks do. -/
theorem datagramReceived_spectrum_state (env : Env) (s : Controller) (m : Msg)
    (a : Nat) :
    (datagramReceived env s m a).1.spectrum_state = s.spectrum_state := by
  unfold datagramReceived initializeSession startSession stopSession
    finalizeSession loadPlugin
  dsimp only
  repeat' (first | rfl | split)

/-- Event-loop state for the scheduler: the controller plus the number of
acquisitions dispatched to the worker thread and not yet completed. -/
structure Sys where
  ctrl : Controller
  inflight : Nat

/-- One event-loop turn: a scheduler tick (which dispatches an acquisition
exactly when the acquisition state is Ready), the completion callback of a
dispatched acquisition (success or failure, only deliverable while one is in
flight), or an inbound datagram.  Tick rate and acquisition latency are
unconstrained: any interleaving of these events is a run. -/
inductive Step : Sys → Sys → Prop
| tick (s : Sys) :
    Step s ⟨(sessionTick s.ctrl).1,
      if s.ctrl.spectrum_state = SpectrumState.Ready then s.inflight + 1
      else s.inflight⟩
| success (s : Sys) (h : 1 ≤ s.inflight) :
    Step s ⟨(handleSpectrumSuccess s.ctrl).1, s.inflight - 1⟩
| failure (s : Sys) (e : String) (h : 1 ≤ s.inflight) :
    Step s ⟨(handleSpectrumFailure e s.ctrl).1, s.inflight - 1⟩
| datagram (s : Sys) (env : Env) (m : Msg) (a : Nat) :
    Step s ⟨(datagramReceived env s.ctrl m a).1, s.inflight⟩

/-- States reachable from the freshly constructed controller with no
acquisition in flight. -/
inductive Reachable : Sys → Prop
| init : Reachable ⟨Controller.init, 0⟩
| step {s t : Sys} : Reachable s → Step s t → Reachable t

/-- The initial event-loop state. -/
def sysInit : Sys := ⟨Controller.init, 0⟩

/-- C6: in every reachable state at most one acquisition is in flight, for
any tick rate and any acquisition latency; moreover whenever the acquisition
state is Ready nothing is in flight, so a tick starts an acquisition only
from Ready (immediately marking it Busy) and a new one can start only after
the previous result or failure has been handled. -/
theorem C6_at_most_one_inflight (st : Sys) (hr : Reachable st) :
    st.inflight ≤ 1 ∧
    (st.ctrl.spectrum_state = SpectrumState.Ready → st.inflight = 0) := by
  induction hr with
  | init => exact ⟨by decide, fun _ => rfl⟩
  | step hr hs ih =>
    rename_i s t
    cases hs with
    | tick =>
      by_cases hsp : s.ctrl.spectrum_state = SpectrumState.Ready
      · have h0 := ih.2 hsp
        simp [sessionTick, hsp, h0]
      · have hid : (sessionTick s.ctrl).1 = s.ctrl := by
          simp [sessionTick, hsp]
        constructor
        · show (if s.ctrl.spectrum_state = SpectrumState.Ready
              then s.inflight + 1 else s.inflight) ≤ 1
          rw [if_neg hsp]
          exact ih.1
        · intro hc
          show (if s.ctrl.spectrum_state = SpectrumState.Ready
              then s.inflight + 1 else s.inflight) = 0
          rw [if_neg hsp]
          rw [hid] at hc
          exact ih.2 hc
    | success h =>
      have h1 := ih.1
      constructor
      · show s.inflight - 1 ≤ 1
        omega
      · intro _
        show s.inflight - 1 = 0
        omega
    | failure e h =>
      have h1 := ih.1
      constructor
      · show s.inflight - 1 ≤ 1
        omega
      · intro _
        show s.inflight - 1 = 0
        omega
    | datagram env m a =>
      have hpres := datagramReceived_spectrum_state env s.ctrl m a
      constructor
      · show s.inflight ≤ 1
        exact ih.1
      · intro hc
        show s.inflight = 0
        exact ih.2 (hpres.symm.trans hc)

/-- C6 witness: the invariant applied to the concrete reachable state after
one tick from the initial state, where one acquisition is in flight. -/
theorem C6_witness :
    (⟨(sessionTick Controller.init).1, 1⟩ : Sys).inflight ≤ 1 ∧
    ((⟨(sessionTick Controller.init).1, 1⟩ : Sys).ctrl.spectrum_state
        = SpectrumState.Ready →
      (⟨(sessionTick Controller.init).1, 1⟩ : Sys).inflight = 0) :=
  C6_at_most_one_inflight ⟨(sessionTick Controller.init).1, 1⟩
    (Reachable.step Reachable.init (Step.tick sysInit))


